import Mathlib

/-!
Verification of the column-layout and classification engine of `readdir`
(`src/output.rs`), shallowly embedded in Lean.

Machine integers are modelled as `Nat`/`Int`.  Strings are modelled with
Lean `String`; Rust `str::len` counts UTF-8 bytes while `String.length`
counts characters — the two coincide on every string manipulated by the
theorems below (ASCII), and one space occupies one byte, so the padding
arithmetic is unchanged.

The floating-point computation inside `human_readable_filesize`
(`(num as f64).ln() / delimiter.ln()`, then `.floor() as i32`) is idealized
as the exact integer logarithm for `num ≥ 1`, and as the saturating cast of
negative infinity (`i32::MIN`) for `num = 0`.  The idealization agrees with
the f64 computation at every input evaluated in the theorems below: for
`num = delimiter` the quotient is the exact division `x / x = 1.0`, and the
other inputs are far from integer boundaries of the logarithm.
-/

deriving instance DecidableEq for Except

/-- Terminal colors used by `write_dir_contents_to_buffer`
(`output.rs` lines 63-72). -/
inductive Color : Type where
  | blue
  | cyan
  | green
  | white
  | red
deriving DecidableEq, Repr

/-- One observable action on the output buffer: a `set_color` call, a
`write!` of a string, or a `writeln!` of a string. -/
inductive OutputItem : Type where
  | setColor (c : Color)
  | write (s : String)
  | writeLine (s : String)
deriving DecidableEq, Repr

/-- The slice of `fs::Metadata` the program reads: `len()` (byte size) and
`permissions().mode()` (permission bits). -/
structure Metadata : Type where
  len : Nat
  mode : Nat
deriving DecidableEq, Repr

/-- One directory entry as `write_dir_contents_to_buffer` observes it:
the display name (`file_name()`), and the results of the filesystem
queries the function performs.  `exists_on_disk`, `is_dir` and `metadata`
follow symlinks (Rust `Path::exists`, `Path::is_dir`, `Path::metadata`);
`is_symlink` does not.  `metadata = none` models a failing
`entry.metadata()` call. -/
structure Entry : Type where
  name : String
  exists_on_disk : Bool
  is_dir : Bool
  is_symlink : Bool
  metadata : Option Metadata
deriving DecidableEq, Repr

/-- The display flags read by `write_dir_contents_to_buffer`:
`'s'` (show size), `'h'` (human readable), `'b'` (base 1000). -/
structure Flags : Type where
  show_size : Bool
  human_readable : Bool
  base_1000 : Bool
deriving DecidableEq, Repr

/-- Models `right_pad` (`output.rs` lines 172-179): the Rust loop pushes one space
per iteration until the length of the accumulator reaches `width`; in
closed form it appends `width - s.len()` spaces. -/
def right_pad (s : String) (width : Nat) : String :=
  s ++ String.mk (List.replicate (width - s.length) ' ')

/-- The unit ladder of `human_readable_filesize` (`output.rs` line 183). -/
def units : List String := ["B", "kB", "MB", "GB", "TB", "PB", "EB", "ZB", "YB"]

/-- Integer logarithm with structural fuel: largest `k` with `b ^ k ≤ n`
(for `b ≥ 2`, `n ≥ 1`), computed as repeated division like the float
expression it models.  Fuel `n` is ample since `n / b < n`. -/
def int_log_fuel : Nat → Nat → Nat → Nat
  | 0, _, _ => 0
  | fuel + 1, b, n => if n < b then 0 else int_log_fuel fuel b (n / b) + 1

/-- Floor of `log_b n` for `n ≥ 1`, the idealization of
`((num as f64).ln() / delimiter.ln()).floor()`. -/
def int_log (b n : Nat) : Nat := int_log_fuel n b n

/-- Round `a / d` (with `d > 0`) to the nearest integer, ties to even —
the rounding performed by Rust when formatting a float with two decimal
places (applied below with `a = 100 * num`). -/
def round_half_even_div (a d : Nat) : Nat :=
  let q := a / d
  let r := a % d
  if 2 * r < d then q
  else if d < 2 * r then q + 1
  else if q % 2 = 0 then q else q + 1

/-- Models `format!("{:.2}", x).parse::<f64>()?` followed by `format!("{}", v)`
(`output.rs` line 191 and the final `format!` on line 193) applied to the
exact quotient `num / d`: format with two decimal places (rounding ties to
even), parse back, and display.  Rust `Display` for `f64` prints the
shortest decimal that round-trips, which on a parsed two-decimal literal of
this size drops trailing zeros (and the dot when both decimals vanish). -/
def format_two_decimals_stripped (num d : Nat) : String :=
  let n2 := round_half_even_div (100 * num) d
  let whole := n2 / 100
  let cents := n2 % 100
  if cents = 0 then toString whole
  else if cents % 10 = 0 then toString whole ++ "." ++ toString (cents / 10)
  else if cents < 10 then toString whole ++ ".0" ++ toString cents
  else toString whole ++ "." ++ toString cents

/-- The exponent computation of `human_readable_filesize` (`output.rs`
line 185) followed by the `as usize` cast of line 188/192:
`cmp::min(((num as f64).ln() / delimiter.ln()).floor() as i32, (units.len() - 1) as i32)`.
For `num = 0` the float quotient is `-inf` and the saturating `as i32`
cast yields `i32::MIN = -2^31`; `as usize` then reinterprets the sign bit
through 64 bits, i.e. reduces modulo `2^64`. -/
def hr_exponent_usize (num delimiter : Nat) : Nat :=
  let floored : Int := if num = 0 then -(2 ^ 31 : Int) else (int_log delimiter num : Int)
  let exponent : Int := min floored ((units.length : Int) - 1)
  (exponent.emod (2 ^ 64)).toNat

/-- Models `human_readable_filesize` (`output.rs` lines 182-194).  The only
fallible step in the Rust code is the `parse::<f64>()?` on line 191; a
string produced by `format!("{:.2}", x)` for finite `x` is always a valid
float literal, so that parse cannot fail and the model returns `Except.ok`
in every branch.  The defensive early return of lines 188-190 is reachable
exactly when the negative exponent of `num = 0` reinterprets as a huge
`usize`. -/
def human_readable_filesize (num : Nat) (base_1000 : Bool) : Except String String :=
  let delimiter : Nat := if base_1000 then 1000 else 1024
  let e := hr_exponent_usize num delimiter
  if e > units.length - 1 then
    Except.ok (toString num ++ " B")
  else
    Except.ok (format_two_decimals_stripped num (delimiter ^ e) ++ " " ++ units.getD e "")

/-- The line-wrap test used by the grid branches of
`write_dir_contents_to_buffer` (`output.rs` lines 90-91 and 143-144):
`i % entries_per_line == entries_per_line - 1 && i != entries.len() - 1`. -/
def wrap_break (i entries_len entries_per_line : Nat) : Bool :=
  i % entries_per_line == entries_per_line - 1 && i != entries_len - 1

/-- The sequence of `set_color` calls made for one existing entry
(`output.rs` lines 103-115): white, then blue if it is a directory, then
cyan if it is a symlink, then green if any execute bit of the (symlink
following) metadata mode is set and the entry is not a directory. -/
def color_items (e : Entry) (m : Metadata) : List OutputItem :=
  [OutputItem.setColor Color.white]
    ++ (if e.is_dir then [OutputItem.setColor Color.blue] else [])
    ++ (if e.is_symlink then [OutputItem.setColor Color.cyan] else [])
    ++ (if m.mode &&& 0o111 != 0 && !e.is_dir then [OutputItem.setColor Color.green] else [])

/-- The color left in effect for an existing entry when its name is
written: the sequential reassignments of `output.rs` lines 104-115 as
shadowing bindings, so the last satisfied condition wins. -/
def entry_color (e : Entry) (m : Metadata) : Color :=
  let c := Color.white
  let c := if e.is_dir then Color.blue else c
  let c := if e.is_symlink then Color.cyan else c
  let c := if m.mode &&& 0o111 != 0 && !e.is_dir then Color.green else c
  c

/-- The padded name written for an existing entry (`output.rs` lines
117-122): per-token dense padding when
`buffer_width * entries.len() <= console_width`, the shared column width
otherwise. -/
def outstr (filename : String) (entries_len buffer_width console_width : Nat) : String :=
  if buffer_width * entries_len ≤ console_width then
    right_pad filename (filename.length + 2)
  else
    right_pad filename buffer_width

/-- The size column of size mode (`output.rs` lines 126-132): raw byte
count unless `'h'` is set, then base 1000 or base 1024 according to
`'b'`. -/
def file_size_string (flags : Flags) (m : Metadata) : Except String String :=
  if !flags.human_readable then Except.ok (toString m.len ++ " B")
  else if flags.base_1000 then human_readable_filesize m.len true
  else human_readable_filesize m.len false

/-- The body of the `for` loop of `write_dir_contents_to_buffer`
(`output.rs` lines 84-150) for the entry at index `i`, as the list of
buffer actions it performs.  `Except.error "MetadataError"` models the `?`
on `entry.metadata()` at line 101, which runs for every existing entry
before the size-mode test. -/
def processEntry (flags : Flags) (n epl bw cw i : Nat) (e : Entry) :
    Except String (List OutputItem) :=
  if !e.exists_on_disk then
    Except.ok [OutputItem.setColor Color.red,
      (if wrap_break i n epl then OutputItem.writeLine else OutputItem.write)
        (right_pad e.name bw)]
  else
    match e.metadata with
    | none => Except.error "MetadataError"
    | some attrs =>
      let o := outstr e.name n bw cw
      if flags.show_size then
        match file_size_string flags attrs with
        | Except.error err => Except.error err
        | Except.ok fs =>
          Except.ok (color_items e attrs
            ++ [OutputItem.write (right_pad fs 10),
                (if i < n - 1 then OutputItem.writeLine else OutputItem.write) o])
      else
        Except.ok (color_items e attrs
          ++ [(if wrap_break i n epl then OutputItem.writeLine else OutputItem.write) o])

/-- The `for` loop of `write_dir_contents_to_buffer`, threading the index
and propagating the first error like the `?` operators in the loop body. -/
def processEntries (flags : Flags) (n epl bw cw : Nat) :
    Nat → List Entry → Except String (List OutputItem)
  | _, [] => Except.ok []
  | i, e :: rest =>
    match processEntry flags n epl bw cw i e with
    | Except.error err => Except.error err
    | Except.ok out =>
      match processEntries flags n epl bw cw (i + 1) rest with
      | Except.error err => Except.error err
      | Except.ok outs => Except.ok (out ++ outs)

/-- Models `output.rs` lines 76-79: the length of the longest display name,
`0` for an empty listing (`unwrap_or(0)`). -/
def length_of_longest_entry (entries : List Entry) : Nat :=
  (entries.map (fun e => e.name.length)).foldr max 0

/-- Models `output.rs` line 81: `cmp::min(length_of_longest_entry + 2, console_width)`. -/
def buffer_width (entries : List Entry) (console_width : Nat) : Nat :=
  min (length_of_longest_entry entries + 2) console_width

/-- Models `output.rs` line 82: `cmp::max(console_width / buffer_width, 1)`.
Rust integer division panics when the divisor is zero, which happens
exactly when `console_width = 0` (then `buffer_width = 0`); `none` models
that panic. -/
def entries_per_line? (entries : List Entry) (console_width : Nat) : Option Nat :=
  if buffer_width entries console_width = 0 then none
  else some (max (console_width / buffer_width entries console_width) 1)

/-- Models `write_dir_contents_to_buffer` (`output.rs` lines 57-154): the layout
plan, the loop over the entries, and the final reset to white (line 151).
The outer `none` models the division-by-zero panic of line 82; the inner
`Except` is the `Result` the Rust function returns. -/
def write_dir_contents_to_buffer (entries : List Entry) (flags : Flags)
    (console_width : Nat) : Option (Except String (List OutputItem)) :=
  match entries_per_line? entries console_width with
  | none => none
  | some epl =>
    some (match processEntries flags entries.length epl
            (buffer_width entries console_width) console_width 0 entries with
      | Except.error err => Except.error err
      | Except.ok body => Except.ok (body ++ [OutputItem.setColor Color.white]))

/-- Holds the value `true` exactly when a listing run completed without panicking and
without returning an error. -/
def result_ok (r : Option (Except String (List OutputItem))) : Bool :=
  match r with
  | some (Except.ok _) => true
  | _ => false

/-- Flags of plain grid mode: no `-s`, no `-h`, no `-b`. -/
def grid_flags : Flags := ⟨false, false, false⟩

/-- Flags of size-display mode (`-s`). -/
def size_flags : Flags := ⟨true, false, false⟩

/-- A broken symlink as the loop sees it: `Path::exists` is false and no
metadata is obtainable. -/
def broken_entry : Entry := ⟨"broken", false, false, false, none⟩

/-- A plain existing file with three-character name. -/
def e_abc : Entry := ⟨"abc", true, false, false, some ⟨1, 0⟩⟩

/-- A plain existing file with five-character name. -/
def e_defgh : Entry := ⟨"defgh", true, false, false, some ⟨1, 0⟩⟩

/-- A plain existing file with four-character name. -/
def e_ijkl : Entry := ⟨"ijkl", true, false, false, some ⟨1, 0⟩⟩

/-- A plain existing file with a ten-character name. -/
def e_long : Entry := ⟨"abcdefghij", true, false, false, some ⟨1, 0⟩⟩

/-- An existing entry whose metadata lookup fails. -/
def e_badmeta : Entry := ⟨"bb", true, false, false, none⟩

/-- A symlink whose target is an executable regular file: the symlink
itself exists, the target is not a directory, and the followed metadata
carries mode `0o755`. -/
def link_to_exec : Entry := ⟨"ln", true, false, true, some ⟨4, 0o755⟩⟩

/-- A symlink whose target is a directory (followed mode `0o755`). -/
def link_to_dir : Entry := ⟨"ld", true, true, true, some ⟨4, 0o755⟩⟩

/-- The function `length_of_longest_entry` bounds every member name. -/
theorem name_length_le_longest :
    ∀ (entries : List Entry) (e : Entry), e ∈ entries →
      e.name.length ≤ length_of_longest_entry entries
  | [], _, h => absurd h (List.not_mem_nil _)
  | a :: t, e, h => by
    have hcons : length_of_longest_entry (a :: t) =
        max a.name.length (length_of_longest_entry t) := rfl
    rcases List.mem_cons.mp h with rfl | h2
    · rw [hcons]; exact le_max_left _ _
    · rw [hcons]; exact (name_length_le_longest t e h2).trans (le_max_right _ _)

/-- For an existing entry whose metadata lookup fails, the loop body fails
with `MetadataError` in every mode (`output.rs` line 101 runs before the
size-mode test). -/
theorem processEntry_metadata_none (flags : Flags) (n epl bw cw i : Nat) (e : Entry)
    (hex : e.exists_on_disk = true) (hm : e.metadata = none) :
    processEntry flags n epl bw cw i e = Except.error "MetadataError" := by
  simp [processEntry, hex, hm]

/-- If some member entry makes the loop body fail, the whole loop never
returns `ok`. -/
theorem processEntries_mem_not_ok (flags : Flags) (n epl bw cw : Nat) (e : Entry)
    (hex : e.exists_on_disk = true) (hm : e.metadata = none) :
    ∀ (es : List Entry) (i : Nat), e ∈ es →
      ∀ l, processEntries flags n epl bw cw i es ≠ Except.ok l := by
  intro es
  induction es with
  | nil => intro i h; cases h
  | cons a t ih =>
    intro i hmem l hok
    unfold processEntries at hok
    rcases List.mem_cons.mp hmem with rfl | hmem2
    · rw [processEntry_metadata_none flags n epl bw cw i e hex hm] at hok
      exact Except.noConfusion hok
    · cases hpe : processEntry flags n epl bw cw i a with
      | error err => rw [hpe] at hok; exact Except.noConfusion hok
      | ok out =>
        rw [hpe] at hok
        cases hpr : processEntries flags n epl bw cw (i + 1) t with
        | error err => rw [hpr] at hok; exact Except.noConfusion hok
        | ok outs => exact ih (i + 1) hmem2 outs hpr

/-- Claim C10: `right_pad` returns a string of length `max (length s) w`
that begins with `s` and continues with spaces only; in particular it
never truncates, so a token longer than the column width is emitted in
full. -/
theorem right_pad_spec (s : String) (w : Nat) :
    (right_pad s w).length = max s.length w ∧
    (right_pad s w).data.take s.length = s.data ∧
    ∀ c ∈ (right_pad s w).data.drop s.length, c = ' ' := by
  have hdata : (right_pad s w).data = s.data ++ List.replicate (w - s.length) ' ' := rfl
  have hlen : s.length = s.data.length := rfl
  refine ⟨?_, ?_, ?_⟩
  · show (right_pad s w).data.length = max s.length w
    rw [hdata, List.length_append, List.length_replicate]
    omega
  · rw [hdata, hlen, List.take_left]
  · intro c hc
    rw [hdata, hlen, List.drop_left] at hc
    exact List.eq_of_mem_replicate hc

/-- Witness for C10 at a concrete token and width, discharging the
membership hypothesis of the spaces-only conjunct at the fourth character
of `right_pad "abc" 7`. -/
theorem right_pad_spec_witness :
    (right_pad "abc" 7).length = max "abc".length 7 ∧ (' ' : Char) = ' ' :=
  ⟨(right_pad_spec "abc" 7).1, (right_pad_spec "abc" 7).2.2 ' ' (by decide)⟩

/-- Claim C8: the size formatter is total — `0` bytes yields `"0 B"`
(the defensive early return fires because the negative float exponent
reinterprets as a huge `usize`, so no logarithm-domain failure occurs),
and the `FormatError` branch (the `parse::<f64>()?` of line 191) never
occurs for any input. -/
theorem size_formatter_never_fails :
    human_readable_filesize 0 true = Except.ok "0 B" ∧
    human_readable_filesize 0 false = Except.ok "0 B" ∧
    ∀ (num : Nat) (b : Bool), ∃ s, human_readable_filesize num b = Except.ok s := by
  refine ⟨by decide, by decide, ?_⟩
  intro num b
  unfold human_readable_filesize
  dsimp only
  by_cases hc : hr_exponent_usize num (if b = true then 1000 else 1024) > units.length - 1
  · exact ⟨_, if_pos hc⟩
  · exact ⟨_, if_neg hc⟩

/-- Claim C4, counterexample: `format(1000, base1000 = true)` does not
print two decimal places — the `parse::<f64>()` / `Display` round trip of
lines 191-193 strips the trailing zeros, producing `"1 kB"`, not
`"1.00 kB"`. -/
theorem size_format_not_two_decimals :
    human_readable_filesize 1000 true = Except.ok "1 kB" ∧
    human_readable_filesize 1000 true ≠ Except.ok "1.00 kB" := by decide

/-- Claim C4, amended: the size formatter rounds to at most two decimal
places and drops trailing zeros: `format(1000, true) = "1 kB"`,
`format(1024, false) = "1 kB"`, `format(1500000, true) = "1.5 MB"`. -/
theorem size_format_examples :
    human_readable_filesize 1000 true = Except.ok "1 kB" ∧
    human_readable_filesize 1024 false = Except.ok "1 kB" ∧
    human_readable_filesize 1500000 true = Except.ok "1.5 MB" := by decide

/-- Claim C1, counterexample: a missing entry (broken symlink) in
size-display mode does not raise `MetadataError`; the run succeeds and the
entry is printed in the `Missing` (red) category, because the missing-entry
branch of lines 88-98 runs before the size-mode test of line 125. -/
theorem missing_size_mode_ok :
    write_dir_contents_to_buffer [broken_entry] size_flags 20 =
      some (Except.ok [OutputItem.setColor Color.red, OutputItem.write "broken  ",
        OutputItem.setColor Color.white]) ∧
    result_ok (write_dir_contents_to_buffer [broken_entry] size_flags 20) = true := by
  decide

/-- Claim C1, amended: in every mode — grid and size-display alike — a
missing entry is printed in the `Missing` (red) category with no metadata
lookup and no error. -/
theorem missing_entry_red_any_mode (flags : Flags) (n epl bw cw i : Nat) (e : Entry)
    (h : e.exists_on_disk = false) :
    processEntry flags n epl bw cw i e =
      Except.ok [OutputItem.setColor Color.red,
        (if wrap_break i n epl then OutputItem.writeLine else OutputItem.write)
          (right_pad e.name bw)] := by
  simp [processEntry, h]

/-- Witness for C1's amended theorem: the broken symlink under `-s`. -/
theorem missing_entry_red_any_mode_witness :
    processEntry size_flags 1 2 8 20 0 broken_entry =
      Except.ok [OutputItem.setColor Color.red, OutputItem.write "broken  "] :=
  (missing_entry_red_any_mode size_flags 1 2 8 20 0 broken_entry rfl).trans (by decide)

/-- Claim C2, counterexample: an existing symlink whose target is an
executable non-directory is colored green, not cyan — the executable check
of lines 111-115 runs after the symlink check and reads the followed
metadata. -/
theorem symlink_exec_colored_green :
    entry_color link_to_exec ⟨4, 0o755⟩ = Color.green ∧
    color_items link_to_exec ⟨4, 0o755⟩ =
      [OutputItem.setColor Color.white, OutputItem.setColor Color.cyan,
       OutputItem.setColor Color.green] ∧
    Color.green ≠ Color.cyan := by decide

/-- Claim C2, amended: an existing symlink is colored cyan — with priority
over `Directory` — unless the followed metadata has an execute bit set and
the entry is not a directory, in which case the later executable check
colors it green. -/
theorem symlink_color_priority (e : Entry) (m : Metadata) (h : e.is_symlink = true) :
    entry_color e m =
      if m.mode &&& 0o111 != 0 && !e.is_dir then Color.green else Color.cyan := by
  simp [entry_color, h]

/-- Witness for C2's amended theorem: a symlink to a directory stays cyan
even though the directory check also fired. -/
theorem symlink_color_priority_witness :
    entry_color link_to_dir ⟨4, 0o755⟩ = Color.cyan :=
  (symlink_color_priority link_to_dir ⟨4, 0o755⟩ rfl).trans (by decide)

/-- Claim C3, counterexample: in grid mode a failing metadata lookup for
one existing entry aborts the whole directory listing — with entries
`[e_abc, e_badmeta, e_ijkl]` the run returns `MetadataError` and the
siblings produce no output at all. -/
theorem grid_mode_metadata_error_aborts :
    write_dir_contents_to_buffer [e_abc, e_badmeta, e_ijkl] grid_flags 20 =
      some (Except.error "MetadataError") := by decide

/-- Claim C3, amended: a failing metadata lookup for an existing entry is
fatal for the directory listing in every mode, because `entry.metadata()?`
runs before the size-mode test; only entries missing on disk skip the
lookup. -/
theorem metadata_failure_aborts_listing (entries : List Entry) (flags : Flags) (cw : Nat)
    (e : Entry) (hmem : e ∈ entries) (hex : e.exists_on_disk = true)
    (hm : e.metadata = none) :
    result_ok (write_dir_contents_to_buffer entries flags cw) = false := by
  unfold result_ok write_dir_contents_to_buffer
  cases hepl : entries_per_line? entries cw with
  | none => rfl
  | some epl =>
    dsimp only
    cases hpr : processEntries flags entries.length epl
        (buffer_width entries cw) cw 0 entries with
    | error err => rfl
    | ok body =>
      exact absurd hpr
        (processEntries_mem_not_ok flags entries.length epl (buffer_width entries cw) cw
          e hex hm entries 0 hmem body)

/-- Witness for C3's amended theorem at the concrete grid-mode listing. -/
theorem metadata_failure_aborts_listing_witness :
    result_ok (write_dir_contents_to_buffer [e_abc, e_badmeta, e_ijkl] grid_flags 20)
      = false :=
  metadata_failure_aborts_listing [e_abc, e_badmeta, e_ijkl] grid_flags 20 e_badmeta
    (by decide) rfl rfl

/-- Claim C5, counterexample: with a single ten-character name and terminal
width 5, the sum of dense token widths (12) exceeds the terminal width,
yet the emitted token is padded to its own length + 2 — the code tests
`buffer_width * entries.len() <= console_width`, not the dense sum. -/
theorem dense_layout_without_dense_fit :
    write_dir_contents_to_buffer [e_long] grid_flags 5 =
      some (Except.ok [OutputItem.setColor Color.white, OutputItem.write "abcdefghij  ",
        OutputItem.setColor Color.white]) ∧
    OutputItem.write "abcdefghij  " =
      OutputItem.write (right_pad e_long.name (e_long.name.length + 2)) ∧
    ¬ (e_long.name.length + 2 ≤ 5) := by decide

/-- Claim C5, amended: the dense per-token layout (each token padded to its
own length + 2) is used exactly when `buffer_width * entries.len()` fits
within the terminal width, where `buffer_width` is already capped at the
terminal width. -/
theorem dense_layout_condition (name : String) (n bw cw : Nat) :
    (bw * n ≤ cw → outstr name n bw cw = right_pad name (name.length + 2)) ∧
    (¬ bw * n ≤ cw → outstr name n bw cw = right_pad name bw) := by
  constructor <;> intro h <;> simp [outstr, h]

/-- Witness for C5's amended theorem: one short token inside a wide
terminal gets the dense padding. -/
theorem dense_layout_condition_witness :
    outstr "abc" 1 5 20 = right_pad "abc" ("abc".length + 2) :=
  (dense_layout_condition "abc" 1 5 20).1 (by decide)

/-- Claim C6, counterexample: with one ten-character name and terminal
width 5 the column width is 5, strictly below the longest token length
plus the two-character separator (12) — the code caps the column width at
the terminal width instead of keeping it at least `longest + 2`. -/
theorem column_width_capped_by_terminal :
    buffer_width [e_long] 5 = 5 ∧
    ¬ (length_of_longest_entry [e_long] + 2 ≤ buffer_width [e_long] 5) := by decide

/-- Claim C6, amended: the column width equals
`min (longest + 2) terminalWidth`; whenever `longest + 2` fits within the
terminal width the column width is at least every token length + 2, and
otherwise it equals the terminal width. -/
theorem column_width_spec (entries : List Entry) (cw : Nat) :
    (length_of_longest_entry entries + 2 ≤ cw →
      ∀ e ∈ entries, e.name.length + 2 ≤ buffer_width entries cw) ∧
    (cw < length_of_longest_entry entries + 2 → buffer_width entries cw = cw) := by
  constructor
  · intro h e he
    have h1 := name_length_le_longest entries e he
    unfold buffer_width
    omega
  · intro h
    unfold buffer_width
    omega

/-- Witness for C6's amended theorem on a fitting listing. -/
theorem column_width_spec_witness :
    e_abc.name.length + 2 ≤ buffer_width [e_abc] 20 :=
  (column_width_spec [e_abc] 20).1 (by decide) e_abc (by decide)

/-- Claim C7, counterexample: at terminal width 0 the divisor
`buffer_width` of line 82 is zero and the integer division
`console_width / buffer_width` panics (modelled by `none`). -/
theorem zero_terminal_width_divides_by_zero :
    buffer_width [e_abc] 0 = 0 ∧ entries_per_line? [e_abc] 0 = none := by decide

/-- Claim C7, amended: for every positive terminal width the divisor is
positive (no division by zero), entries-per-row is at least 1, and if the
terminal width were below the column width entries-per-row would be
exactly 1 (in fact the column width never exceeds the terminal width). -/
theorem layout_positive_width_safe (entries : List Entry) (cw : Nat) (h : 1 ≤ cw) :
    0 < buffer_width entries cw ∧
    entries_per_line? entries cw = some (max (cw / buffer_width entries cw) 1) ∧
    1 ≤ max (cw / buffer_width entries cw) 1 ∧
    (cw < buffer_width entries cw → max (cw / buffer_width entries cw) 1 = 1) := by
  have hbw : 0 < buffer_width entries cw := by unfold buffer_width; omega
  have hle : buffer_width entries cw ≤ cw := by unfold buffer_width; omega
  refine ⟨hbw, ?_, le_max_right _ _, ?_⟩
  · unfold entries_per_line?
    rw [if_neg (by omega)]
  · intro hlt
    omega

/-- Witness for C7's amended theorem at terminal width 20. -/
theorem layout_positive_width_safe_witness :
    0 < buffer_width [e_abc] 20 ∧
    entries_per_line? [e_abc] 20 = some (max (20 / buffer_width [e_abc] 20) 1) ∧
    1 ≤ max (20 / buffer_width [e_abc] 20) 1 ∧
    (20 < buffer_width [e_abc] 20 → max (20 / buffer_width [e_abc] 20) 1 = 1) :=
  layout_positive_width_safe [e_abc] 20 (by decide)

/-- Claim C9: in grid mode a line break follows every `entriesPerRow`-th
token except the very last token overall; concretely, for tokens of
lengths 3, 5, 4 and terminal width 20 the column width is 7,
entries-per-row is 2, and a break follows token 2 but not token 3. -/
theorem row_wrap_rule :
    (buffer_width [e_abc, e_defgh, e_ijkl] 20 = 7 ∧
     entries_per_line? [e_abc, e_defgh, e_ijkl] 20 = some 2 ∧
     write_dir_contents_to_buffer [e_abc, e_defgh, e_ijkl] grid_flags 20 =
       some (Except.ok [OutputItem.setColor Color.white, OutputItem.write "abc    ",
         OutputItem.setColor Color.white, OutputItem.writeLine "defgh  ",
         OutputItem.setColor Color.white, OutputItem.write "ijkl   ",
         OutputItem.setColor Color.white])) ∧
    (∀ (flags : Flags) (n epl bw cw i : Nat) (e : Entry) (m : Metadata),
      flags.show_size = false → e.exists_on_disk = true → e.metadata = some m →
      processEntry flags n epl bw cw i e =
        Except.ok (color_items e m ++
          [(if wrap_break i n epl then OutputItem.writeLine else OutputItem.write)
            (outstr e.name n bw cw)])) := by
  refine ⟨by decide, ?_⟩
  intro flags n epl bw cw i e m hs hex hm
  simp [processEntry, hex, hm, hs]

/-- Witness for C9's general row-wrap rule at the claim's own numbers:
token 2 of 3 (index 1) with entries-per-row 2 ends in a line break. -/
theorem row_wrap_rule_witness :
    processEntry grid_flags 3 2 7 20 1 e_defgh =
      Except.ok [OutputItem.setColor Color.white, OutputItem.writeLine "defgh  "] :=
  (row_wrap_rule.2 grid_flags 3 2 7 20 1 e_defgh ⟨1, 0⟩ rfl rfl rfl).trans (by decide)
